import Mathlib

/-!
Verification of the `resize-magnetic-ebs-volume` script: a shallow embedding
of the poll engine, the precondition validators and the workflow pipeline,
together with theorems about the behaviour claimed in the specification.

Time is modelled ideally: the probes are instantaneous and the inter-poll
delay is exactly `POLL_DELAY` milliseconds, so the `k`-th probe invocation
(0-indexed) happens at elapsed time `k * POLL_DELAY` measured from the
first invocation, which mirrors the script's recursion that preserves the
original `startTime` across retries.
-/

namespace ResizeEbs

/-- Shape of a probe's response: `{ success, result }` in the script. -/
structure PollResult (α : Type) where
  success : Bool
  result : α

/-- `const POLL_DELAY = 5 * 1000` — 5 seconds between calls. -/
def POLL_DELAY : Nat := 5 * 1000

/-- Outcome of the raw poll loop: either success carrying the probed result,
the elapsed milliseconds and the number of probe invocations made, or a
timeout carrying the elapsed milliseconds and the invocation count. -/
inductive PollOutcome (α : Type) where
  | success (result : α) (elapsedMs : Nat) (invocations : Nat)
  | timeout (elapsedMs : Nat) (invocations : Nat)
deriving Repr

/-- Errors thrown by the script, with the data each `Error` message string
interpolates. -/
inductive ResizeError where
  | timeout (message : String) (elapsedMs : Nat)
  | notFound (instanceId : String)
  | multipleVolumes
  | noVolume
  | unsupportedType (volumeId : String) (volumeType : String)
  | noAttachment (volumeId : String)
  | invalidSize (volumeId : String) (targetSizeGB : Nat) (currentSizeGB : Nat)
deriving Repr, DecidableEq

/-- The exact message strings the script builds for each thrown `Error`. -/
def ResizeError.message : ResizeError → String
  | .timeout msg elapsedMs =>
      "timed out after " ++ toString (elapsedMs / 1000) ++ " seconds waiting until: " ++ msg
  | .notFound iid => "could not find a stopped instance of ID " ++ iid
  | .multipleVolumes => "found multiple attached volumes"
  | .noVolume => "could not find any attached volumes"
  | .unsupportedType vid vtype =>
      "volume " ++ vid ++ " is type " ++ vtype ++ ", not \"standard\" - check if you can modify " ++ vid ++ " directly"
  | .noAttachment vid => "could not find any Attachments for volume " ++ vid
  | .invalidSize vid target current =>
      "cannot create new volume with " ++ toString target ++ " GB from " ++ vid ++ ": current volume size is " ++ toString current ++ " GB"

/-- The recursion of `pollUntil(operation, message, timeoutMs, start)`:
probe attempt `attempt` is made at elapsed time `attempt * POLL_DELAY`
(the original start time is preserved across retries).  If the probe
succeeds the loop stops with the probed result; otherwise when
`elapsed > timeoutMs` it times out, else it waits one delay and retries. -/
def pollUntilFrom (op : Nat → PollResult α) (timeoutMs : Nat) (attempt : Nat) :
    PollOutcome α :=
  if (op attempt).success then
    .success (op attempt).result (attempt * POLL_DELAY) (attempt + 1)
  else if timeoutMs < attempt * POLL_DELAY then
    .timeout (attempt * POLL_DELAY) (attempt + 1)
  else
    pollUntilFrom op timeoutMs (attempt + 1)
termination_by timeoutMs + 1 - attempt * POLL_DELAY
decreasing_by
  simp only [POLL_DELAY] at *
  omega

/-- Record returned on a successful poll: the probe's `result`, the elapsed
milliseconds at the successful attempt, and the total number of probe
invocations made. -/
structure PollSuccess (α : Type) where
  result : α
  elapsedMs : Nat
  invocations : Nat

/-- `pollUntil(operation, message, timeoutMs)`: starts the loop at the first
attempt (no initial delay); a timeout becomes an `Error` carrying the
description `message` and the elapsed time. -/
def pollUntil (op : Nat → PollResult α) (message : String) (timeoutMs : Nat) :
    Except ResizeError (PollSuccess α) :=
  match pollUntilFrom op timeoutMs 0 with
  | .success r e n => .ok ⟨r, e, n⟩
  | .timeout e _ => .error (.timeout message e)

/-- An attachment of a volume: `{ InstanceId, Device }`. -/
structure Attachment where
  instanceId : String
  device : String
deriving Repr, DecidableEq

/-- A volume as reported by the control plane:
`{ VolumeId, VolumeType, Size, State, AvailabilityZone, Attachments }`. -/
structure Volume where
  volumeId : String
  volumeType : String
  size : Nat
  state : String
  availabilityZone : String
  attachments : List Attachment
deriving Repr, DecidableEq

/-- A snapshot as reported by the control plane:
`{ SnapshotId, VolumeId, State, Progress }`. -/
structure Snapshot where
  snapshotId : String
  volumeId : String
  state : String
  progress : String
deriving Repr, DecidableEq

/-- An instance as reported by the control plane:
`{ InstanceId, State.Name, Placement.AvailabilityZone }`. -/
structure Instance where
  instanceId : String
  state : String
  availabilityZone : String
deriving Repr, DecidableEq

/-- What `getStoppedInstance` returns:
`{ instanceId: InstanceId, availabilityZone: Placement.AvailabilityZone }`. -/
structure InstanceRef where
  instanceId : String
  availabilityZone : String
deriving Repr, DecidableEq

/-- The `{ volume, device }` context threaded through the pipeline stages. -/
structure WorkflowContext where
  volume : Volume
  device : String
deriving Repr, DecidableEq

/-- The EC2 requests the script issues, with the request fields it fills in. -/
inductive EC2Call where
  | describeInstances (instanceIds : List String) (stateFilter : List String)
  | describeVolumesFiltered (instanceId : String) (availabilityZone : String)
  | describeVolumesById (volumeId : String)
  | detachVolume (volumeId : String) (instanceId : String)
  | createSnapshot (volumeId : String) (description : String)
  | describeSnapshots (snapshotId : String)
  | createVolume (snapshotId : String) (availabilityZone : String)
      (volumeType : String) (size : Nat)
  | attachVolume (volumeId : String) (device : String) (instanceId : String)
deriving Repr, DecidableEq

/-- Whether a request mutates remote state (the four non-describe calls). -/
def EC2Call.isMutating : EC2Call → Bool
  | .detachVolume _ _ => true
  | .createSnapshot _ _ => true
  | .createVolume _ _ _ _ => true
  | .attachVolume _ _ _ => true
  | _ => false

/-- The behaviour of the remote control plane over one run: the responses
the seven call sites of the script observe.  Polled reads are streams
indexed by the attempt number of the poll loop that issues them. -/
structure EC2Env where
  instances : List Instance
  volumes : List Volume
  detachPoll : Nat → Volume
  snapshotHandle : Snapshot
  snapshotPoll : Nat → Snapshot
  createdVolume : Volume
  createPoll : Nat → Volume
  attachPoll : Nat → Volume

/-- A pipeline step's observable behaviour: its result (or first error) and
the sequence of EC2 requests it issued, in order. -/
abbrev RunM (α : Type) : Type := Except ResizeError α × List EC2Call

/-- Sequencing of pipeline steps (`.then` in the script): on error the
remaining steps never run; the call traces concatenate. -/
def bindRun (x : RunM α) (f : α → RunM β) : RunM β :=
  match x.1 with
  | .error e => (.error e, x.2)
  | .ok a => ((f a).1, x.2 ++ (f a).2)

/-- A purely local step that issues no EC2 request. -/
def pureStep (e : Except ResizeError α) : RunM α := (e, [])

/-- Runs a poll loop inside the pipeline recording one `call` request per
probe invocation. -/
def runPoll (call : EC2Call) (op : Nat → PollResult α) (message : String)
    (timeoutMs : Nat) : RunM (PollSuccess α) :=
  match pollUntilFrom op timeoutMs 0 with
  | .success r e n => (.ok ⟨r, e, n⟩, List.replicate n call)
  | .timeout e n => (.error (.timeout message e), List.replicate n call)

/-- `describeInstances` with `InstanceIds=[instanceId]` and the
`instance-state-name = stopped` filter: the control plane returns the
instances matching both the id and the state filter. -/
def describeInstancesStopped (world : List Instance) (instanceId : String) :
    List Instance :=
  world.filter (fun i => i.instanceId == instanceId && i.state == "stopped")

/-- `getStoppedInstance(instanceId)`: queries the stopped instance; throws
`NotFound` when the response is empty, else returns the head instance's id
and availability zone. -/
def getStoppedInstance (env : EC2Env) (instanceId : String) : RunM InstanceRef :=
  (match describeInstancesStopped env.instances instanceId with
    | [] => .error (.notFound instanceId)
    | i :: _ => .ok ⟨i.instanceId, i.availabilityZone⟩,
   [EC2Call.describeInstances [instanceId] ["stopped"]])

/-- `describeVolumes` with the `attachment.instance-id` and
`availability-zone` filters: the control plane returns the volumes in the
zone having an attachment to the instance. -/
def describeVolumesAttached (world : List Volume) (instanceId : String)
    (az : String) : List Volume :=
  world.filter (fun v =>
    v.availabilityZone == az && v.attachments.any (fun a => a.instanceId == instanceId))

/-- `getSingleVolume(data)`: throws `MultipleVolumes` when more than one
volume is returned, `NoVolume` when none, `UnsupportedType` when the sole
volume is not of type `standard`, `NoAttachment` when it has no
attachments; otherwise returns the volume and its first attachment's
device. -/
def getSingleVolume (volumes : List Volume) : Except ResizeError WorkflowContext :=
  if volumes.length > 1 then .error .multipleVolumes
  else
    match volumes with
    | [] => .error .noVolume
    | v :: _ =>
      if v.volumeType ≠ "standard" then .error (.unsupportedType v.volumeId v.volumeType)
      else
        match v.attachments with
        | [] => .error (.noAttachment v.volumeId)
        | a :: _ => .ok ⟨v, a.device⟩

/-- `getSingleVolumeAttachedTo(instance)`: the filtered `describeVolumes`
query followed by `getSingleVolume`. -/
def getSingleVolumeAttachedTo (env : EC2Env) (inst : InstanceRef) :
    RunM WorkflowContext :=
  (getSingleVolume (describeVolumesAttached env.volumes inst.instanceId inst.availabilityZone),
   [EC2Call.describeVolumesFiltered inst.instanceId inst.availabilityZone])

/-- `checkVolumeSizeSmallerThan(sizeGB)(ctx)`: throws `InvalidSize` when the
current volume size exceeds the requested size, else passes `ctx` through. -/
def checkVolumeSizeSmallerThan (sizeGB : Nat) (ctx : WorkflowContext) :
    Except ResizeError WorkflowContext :=
  if ctx.volume.size > sizeGB then
    .error (.invalidSize ctx.volume.volumeId sizeGB ctx.volume.size)
  else
    .ok ctx

/-- `volumeIsInState(volumeId, desiredState)`: the probe reading the volume
and reporting success iff its state equals the desired state, with the
polled volume as result. -/
def volumeIsInState (vols : Nat → Volume) (desiredState : String) :
    Nat → PollResult Volume :=
  fun n => ⟨(vols n).state == desiredState, vols n⟩

/-- `snapshotIsComplete(snapshotId)`: the probe reading the snapshot and
reporting success iff its state is `completed`, with the polled snapshot as
result. -/
def snapshotIsComplete (snaps : Nat → Snapshot) : Nat → PollResult Snapshot :=
  fun n => ⟨(snaps n).state == "completed", snaps n⟩

/-- `detachVolumeFrom(instanceId)(ctx)`: calls `detachVolume`, polls the
source volume until `available` with a 1 minute timeout, and returns the
original `ctx` on success. -/
def detachVolumeFrom (env : EC2Env) (instanceId : String) (ctx : WorkflowContext) :
    RunM WorkflowContext :=
  bindRun ((.ok (), [EC2Call.detachVolume ctx.volume.volumeId instanceId]) : RunM Unit)
    fun _ =>
  bindRun (runPoll (.describeVolumesById ctx.volume.volumeId)
      (volumeIsInState env.detachPoll "available")
      (ctx.volume.volumeId ++ " is in \"available\" state after detaching")
      (1 * 60 * 1000)) fun _ =>
  (.ok ctx, [])

/-- `createVolumeFromSnapshot(sizeGB, AvailabilityZone)(snapshot)`: calls
`createVolume` with the snapshot id, the zone, type `gp2` and the requested
size, then polls the created volume until `available` with a 1 minute
timeout, returning the polled volume. -/
def createVolumeFromSnapshot (env : EC2Env) (sizeGB : Nat) (az : String)
    (snapshot : Snapshot) : RunM Volume :=
  bindRun ((.ok env.createdVolume,
      [EC2Call.createVolume snapshot.snapshotId az "gp2" sizeGB]) : RunM Volume)
    fun created =>
  bindRun (runPoll (.describeVolumesById created.volumeId)
      (volumeIsInState env.createPoll "available")
      (created.volumeId ++ " is in \"available\" state after creating from snapshot "
        ++ snapshot.snapshotId)
      (1 * 60 * 1000)) fun s =>
  (.ok s.result, [])

/-- `resizeVolume(sizeGB)(ctx)`: calls `createSnapshot` on the source
volume, polls the snapshot until `completed` with a 15 minute timeout, then
creates the new volume from the completed snapshot in the source volume's
availability zone, returning `{ volume: createdVolume, device }`. -/
def resizeVolume (env : EC2Env) (sizeGB : Nat) (ctx : WorkflowContext) :
    RunM WorkflowContext :=
  bindRun ((.ok env.snapshotHandle,
      [EC2Call.createSnapshot ctx.volume.volumeId
        ("Resize " ++ ctx.volume.volumeId ++ " to " ++ toString sizeGB ++ "GB")]) :
      RunM Snapshot)
    fun snapshot =>
  bindRun (runPoll (.describeSnapshots snapshot.snapshotId)
      (snapshotIsComplete env.snapshotPoll)
      (snapshot.snapshotId ++ " is in state \"completed\" after creating")
      (15 * 60 * 1000)) fun s =>
  bindRun (createVolumeFromSnapshot env sizeGB ctx.volume.availabilityZone s.result)
    fun v =>
  (.ok ⟨v, ctx.device⟩, [])

/-- `attachToInstance(instanceId)(ctx)`: calls `attachVolume` with the new
volume, the captured device path and the instance, then polls the volume
until `in-use` with a 2 minute timeout, returning the polled volume. -/
def attachToInstance (env : EC2Env) (instanceId : String) (ctx : WorkflowContext) :
    RunM Volume :=
  bindRun ((.ok (),
      [EC2Call.attachVolume ctx.volume.volumeId ctx.device instanceId]) : RunM Unit)
    fun _ =>
  bindRun (runPoll (.describeVolumesById ctx.volume.volumeId)
      (volumeIsInState env.attachPoll "in-use")
      (ctx.volume.volumeId ++ " is in state \"in-use\" state after attaching to "
        ++ instanceId)
      (2 * 60 * 1000)) fun s =>
  (.ok s.result, [])

/-- The top-level `.then` chain of the script. -/
def pipeline (env : EC2Env) (targetInstanceId : String) (desiredSizeGB : Nat) :
    RunM Volume :=
  bindRun (getStoppedInstance env targetInstanceId) fun inst =>
  bindRun (getSingleVolumeAttachedTo env inst) fun ctx =>
  bindRun (pureStep (checkVolumeSizeSmallerThan desiredSizeGB ctx)) fun ctx2 =>
  bindRun (detachVolumeFrom env targetInstanceId ctx2) fun ctx3 =>
  bindRun (resizeVolume env desiredSizeGB ctx3) fun ctx4 =>
  attachToInstance env targetInstanceId ctx4

/-! ## Poll engine lemmas -/

/-- If the probe never succeeds, the loop started at any in-budget attempt
ends in a timeout whose elapsed time lies in `(timeoutMs, timeoutMs + POLL_DELAY]`. -/
theorem pollUntilFrom_never (op : Nat → PollResult α) (timeoutMs : Nat)
    (h : ∀ n, (op n).success = false) (attempt : Nat)
    (ha : attempt * POLL_DELAY ≤ timeoutMs + POLL_DELAY) :
    ∃ e n, pollUntilFrom op timeoutMs attempt = .timeout e n ∧
      timeoutMs < e ∧ e ≤ timeoutMs + POLL_DELAY := by
  rw [pollUntilFrom]
  rw [h attempt]
  by_cases ht : timeoutMs < attempt * POLL_DELAY
  · simp only [Bool.false_eq_true, if_false, ht, if_true]
    exact ⟨attempt * POLL_DELAY, attempt + 1, rfl, ht, ha⟩
  · simp only [Bool.false_eq_true, if_false, ht]
    exact pollUntilFrom_never op timeoutMs h (attempt + 1)
      (by simp only [POLL_DELAY] at *; omega)
termination_by timeoutMs + 1 - attempt * POLL_DELAY
decreasing_by simp only [POLL_DELAY] at *; omega

/-- If the probe first succeeds at attempt `k` and no earlier attempt (from
`attempt` on) fails past the budget, the loop started at `attempt ≤ k`
returns attempt `k`'s result at elapsed `k * POLL_DELAY` after `k + 1`
invocations. -/
theorem pollUntilFrom_firstSuccess (op : Nat → PollResult α) (timeoutMs : Nat)
    (k : Nat) (hk : (op k).success = true) (attempt : Nat) (hak : attempt ≤ k)
    (hfail : ∀ j, attempt ≤ j → j < k → (op j).success = false)
    (hbudget : ∀ j, attempt ≤ j → j < k → j * POLL_DELAY ≤ timeoutMs) :
    pollUntilFrom op timeoutMs attempt =
      .success (op k).result (k * POLL_DELAY) (k + 1) := by
  rw [pollUntilFrom]
  rcases Nat.eq_or_lt_of_le hak with heq | hlt
  · subst heq
    simp [hk]
  · have hf := hfail attempt le_rfl hlt
    have hb := hbudget attempt le_rfl hlt
    simp only [hf, Bool.false_eq_true, if_false, Nat.not_lt_of_le hb, if_false]
    exact pollUntilFrom_firstSuccess op timeoutMs k hk (attempt + 1) hlt
      (fun j h1 h2 => hfail j (Nat.le_of_succ_le h1) h2)
      (fun j h1 h2 => hbudget j (Nat.le_of_succ_le h1) h2)
termination_by k - attempt
decreasing_by omega

/-- A timeout outcome always comes from an attempt whose probe failed. -/
theorem pollUntilFrom_timeout_inv (op : Nat → PollResult α) (timeoutMs : Nat)
    (attempt e n : Nat) (h : pollUntilFrom op timeoutMs attempt = .timeout e n) :
    ∃ m, e = m * POLL_DELAY ∧ (op m).success = false := by
  rw [pollUntilFrom] at h
  by_cases hs : (op attempt).success
  · simp [hs] at h
  · by_cases ht : timeoutMs < attempt * POLL_DELAY
    · simp only [Bool.not_eq_true] at hs
      simp only [hs, Bool.false_eq_true, if_false, ht, if_true,
        PollOutcome.timeout.injEq] at h
      exact ⟨attempt, h.1.symm, hs⟩
    · simp only [Bool.not_eq_true] at hs
      simp only [hs, Bool.false_eq_true, if_false, ht] at h
      exact pollUntilFrom_timeout_inv op timeoutMs (attempt + 1) e n h
termination_by timeoutMs + 1 - attempt * POLL_DELAY
decreasing_by simp only [POLL_DELAY] at *; omega

/-- Evaluation helper: a probe succeeding on its first attempt stops the
loop at elapsed 0 after one invocation. -/
theorem pollUntilFrom_zero_success (op : Nat → PollResult α) (timeoutMs : Nat)
    (h : (op 0).success = true) :
    pollUntilFrom op timeoutMs 0 = .success (op 0).result 0 1 := by
  rw [pollUntilFrom]
  simp [h]

/-- C1: if the probe never reports success, `pollUntil` terminates raising a
`Timeout` error that carries the description and an elapsed time strictly
greater than `timeoutMs` (the start time is preserved across retries, so
the elapsed time is measured from the first invocation) and at most
`timeoutMs` plus one inter-poll delay. -/
theorem pollUntil_timeout_bound (op : Nat → PollResult α) (message : String)
    (timeoutMs : Nat) (h : ∀ n, (op n).success = false) :
    ∃ elapsedMs, pollUntil op message timeoutMs = .error (.timeout message elapsedMs) ∧
      timeoutMs < elapsedMs ∧ elapsedMs ≤ timeoutMs + POLL_DELAY ∧
      (ResizeError.timeout message elapsedMs).message =
        "timed out after " ++ toString (elapsedMs / 1000) ++
          " seconds waiting until: " ++ message := by
  obtain ⟨e, n, heq, h1, h2⟩ := pollUntilFrom_never op timeoutMs h 0 (by simp)
  exact ⟨e, by simp [pollUntil, heq], h1, h2, rfl⟩

/-- Closed witness for `pollUntil_timeout_bound` at a never-succeeding probe. -/
theorem pollUntil_timeout_bound_witness :
    ∃ elapsedMs, pollUntil (fun _ => PollResult.mk false 0) "the stub probe" 1000 =
      .error (.timeout "the stub probe" elapsedMs) ∧
      1000 < elapsedMs ∧ elapsedMs ≤ 1000 + POLL_DELAY ∧
      (ResizeError.timeout "the stub probe" elapsedMs).message =
        "timed out after " ++ toString (elapsedMs / 1000) ++
          " seconds waiting until: " ++ "the stub probe" :=
  pollUntil_timeout_bound (fun _ => PollResult.mk false 0) "the stub probe" 1000
    (fun _ => rfl)

/-- C2: `pollUntil` invokes the probe once immediately (a first success is
returned at elapsed time 0 after exactly one invocation), and whenever the
probe first reports success on attempt `k` of the run (all earlier attempts
fail within the timeout budget), exactly `k` probe invocations occur and
`pollUntil` returns that attempt's result unchanged. -/
theorem pollUntil_first_success_invocations (op : Nat → PollResult α)
    (message : String) (timeoutMs : Nat) :
    ((op 0).success = true →
      pollUntil op message timeoutMs = .ok ⟨(op 0).result, 0, 1⟩) ∧
    (∀ k, 0 < k → (op (k - 1)).success = true →
      (∀ j, j < k - 1 → (op j).success = false) →
      (∀ j, j < k - 1 → j * POLL_DELAY ≤ timeoutMs) →
      pollUntil op message timeoutMs =
        .ok ⟨(op (k - 1)).result, (k - 1) * POLL_DELAY, k⟩) := by
  constructor
  · intro h0
    simp [pollUntil, pollUntilFrom_zero_success op timeoutMs h0]
  · intro k hk hsucc hfail hbudget
    have := pollUntilFrom_firstSuccess op timeoutMs (k - 1) hsucc 0 (Nat.zero_le _)
      (fun j _ h2 => hfail j h2) (fun j _ h2 => hbudget j h2)
    have hk1 : k - 1 + 1 = k := Nat.succ_pred_eq_of_pos hk
    simp [pollUntil, this, hk1]

/-- Closed witness for `pollUntil_first_success_invocations`: the probe
first succeeds on attempt 2, so two invocations occur and its result is
returned. -/
theorem pollUntil_first_success_invocations_witness :
    pollUntil (fun n => PollResult.mk (decide (n = 1)) (n + 10)) "probe two" 60000 =
      .ok ⟨11, 1 * POLL_DELAY, 2⟩ :=
  (pollUntil_first_success_invocations
      (fun n => PollResult.mk (decide (n = 1)) (n + 10)) "probe two" 60000).2 2
    (by decide) (by decide)
    (fun j hj => by simp only [decide_eq_false_iff_not]; omega)
    (fun j hj => by simp only [POLL_DELAY]; omega)

/-- C10: `pollUntil` raises `Timeout` only on an attempt whose probe
reported failure, and a probe invocation reporting success is returned even
when its elapsed time already exceeds `timeoutMs` (no budget condition is
required at the successful attempt). -/
theorem pollUntil_success_after_budget (op : Nat → PollResult α)
    (message : String) (timeoutMs : Nat) :
    (∀ m e, pollUntil op message timeoutMs = .error (.timeout m e) →
      ∃ n, e = n * POLL_DELAY ∧ (op n).success = false) ∧
    (∀ k, (∀ j, j < k → (op j).success = false) →
      (∀ j, j < k → j * POLL_DELAY ≤ timeoutMs) →
      (op k).success = true →
      pollUntil op message timeoutMs = .ok ⟨(op k).result, k * POLL_DELAY, k + 1⟩) := by
  constructor
  · intro m e h
    unfold pollUntil at h
    rcases heq : pollUntilFrom op timeoutMs 0 with _ | ⟨e', n'⟩
    · rw [heq] at h
      exact absurd h (by simp)
    · rw [heq] at h
      simp only [Except.error.injEq, ResizeError.timeout.injEq] at h
      exact h.2 ▸ pollUntilFrom_timeout_inv op timeoutMs 0 e' n' heq
  · intro k hfail hbudget hsucc
    have := pollUntilFrom_firstSuccess op timeoutMs k hsucc 0 (Nat.zero_le _)
      (fun j _ h2 => hfail j h2) (fun j _ h2 => hbudget j h2)
    simp [pollUntil, this]

/-- Closed witness for `pollUntil_success_after_budget`: with a 1 second
timeout the probe succeeds on attempt 2 at elapsed 5 seconds, past the
budget, and the result is still returned. -/
theorem pollUntil_success_after_budget_witness :
    pollUntil (fun n => PollResult.mk (decide (n = 1)) n) "late" 1000 =
      .ok ⟨1, 1 * POLL_DELAY, 2⟩ ∧ 1000 < 1 * POLL_DELAY :=
  ⟨(pollUntil_success_after_budget (fun n => PollResult.mk (decide (n = 1)) n)
      "late" 1000).2 1
    (fun j hj => by simp only [decide_eq_false_iff_not]; omega)
    (fun j hj => by simp only [POLL_DELAY]; omega)
    (by decide), by decide⟩

/-! ## Sequencing and trace lemmas -/

theorem bindRun_error_eq {x : RunM α} {e : ResizeError} {f : α → RunM β}
    (h : x.1 = .error e) : bindRun x f = (.error e, x.2) := by
  unfold bindRun
  rw [h]

theorem bindRun_ok_eq {x : RunM α} {a : α} {f : α → RunM β}
    (h : x.1 = .ok a) : bindRun x f = ((f a).1, x.2 ++ (f a).2) := by
  unfold bindRun
  rw [h]

theorem bindRun_snd_left {x : RunM α} {f : α → RunM β} {c : EC2Call}
    (hc : c ∈ x.2) : c ∈ (bindRun x f).2 := by
  unfold bindRun
  cases h : x.1 <;> simp [hc]

theorem bindRun_snd_right {x : RunM α} {f : α → RunM β} {a : α} {c : EC2Call}
    (h : x.1 = .ok a) (hc : c ∈ (f a).2) : c ∈ (bindRun x f).2 := by
  rw [bindRun_ok_eq h]
  exact List.mem_append_right _ hc

theorem bindRun_trace_mem {x : RunM α} {f : α → RunM β} {c : EC2Call}
    (hc : c ∈ (bindRun x f).2) :
    c ∈ x.2 ∨ ∃ a, x.1 = .ok a ∧ c ∈ (f a).2 := by
  unfold bindRun at hc
  cases h : x.1 with
  | error e => rw [h] at hc; exact .inl hc
  | ok a =>
      rw [h] at hc
      rcases List.mem_append.mp hc with h2 | h2
      · exact .inl h2
      · exact .inr ⟨a, rfl, h2⟩

theorem bindRun_fst_ok {x : RunM α} {f : α → RunM β} {b : β}
    (h : (bindRun x f).1 = .ok b) : ∃ a, x.1 = .ok a ∧ (f a).1 = .ok b := by
  unfold bindRun at h
  cases hx : x.1 with
  | error e => rw [hx] at h; exact absurd h (by simp)
  | ok a => rw [hx] at h; exact ⟨a, rfl, h⟩

theorem runPoll_eq_of_success {op : Nat → PollResult α} {timeoutMs : Nat}
    {r : α} {e n : Nat} (call : EC2Call) (message : String)
    (h : pollUntilFrom op timeoutMs 0 = .success r e n) :
    runPoll call op message timeoutMs = (.ok ⟨r, e, n⟩, List.replicate n call) := by
  unfold runPoll
  rw [h]

theorem runPoll_eq_of_timeout {op : Nat → PollResult α} {timeoutMs : Nat}
    {e n : Nat} (call : EC2Call) (message : String)
    (h : pollUntilFrom op timeoutMs 0 = .timeout e n) :
    runPoll call op message timeoutMs =
      (.error (.timeout message e), List.replicate n call) := by
  unfold runPoll
  rw [h]

theorem runPoll_snd (call : EC2Call) (op : Nat → PollResult α) (message : String)
    (timeoutMs : Nat) :
    ∃ n, (runPoll call op message timeoutMs).2 = List.replicate n call := by
  unfold runPoll
  cases pollUntilFrom op timeoutMs 0 with
  | success r e n => exact ⟨n, rfl⟩
  | timeout e n => exact ⟨n, rfl⟩

theorem runPoll_mem {call : EC2Call} {op : Nat → PollResult α} {message : String}
    {timeoutMs : Nat} {c : EC2Call}
    (hc : c ∈ (runPoll call op message timeoutMs).2) : c = call := by
  obtain ⟨n, hn⟩ := runPoll_snd call op message timeoutMs
  rw [hn] at hc
  exact List.eq_of_mem_replicate hc

theorem runPoll_fst_ok {call : EC2Call} {op : Nat → PollResult α} {message : String}
    {timeoutMs : Nat} {s : PollSuccess α}
    (h : (runPoll call op message timeoutMs).1 = .ok s) :
    pollUntilFrom op timeoutMs 0 = .success s.result s.elapsedMs s.invocations := by
  unfold runPoll at h
  cases hp : pollUntilFrom op timeoutMs 0 with
  | success r e n =>
      rw [hp] at h
      simp only [Except.ok.injEq] at h
      rw [← h]
  | timeout e n => rw [hp] at h; exact absurd h (by simp)

/-! ## Stage trace and inversion lemmas -/

theorem detachVolumeFrom_trace {env : EC2Env} {iid : String} {ctx : WorkflowContext}
    {c : EC2Call} (hc : c ∈ (detachVolumeFrom env iid ctx).2) :
    c = EC2Call.detachVolume ctx.volume.volumeId iid ∨
      c = EC2Call.describeVolumesById ctx.volume.volumeId := by
  unfold detachVolumeFrom at hc
  rcases bindRun_trace_mem hc with h | ⟨a, _, h⟩
  · exact .inl (by simpa using h)
  · rcases bindRun_trace_mem h with h2 | ⟨s, _, h2⟩
    · exact .inr (runPoll_mem h2)
    · exact absurd h2 (by simp)

theorem detachVolumeFrom_fst_ok {env : EC2Env} {iid : String}
    {ctx ctx' : WorkflowContext}
    (h : (detachVolumeFrom env iid ctx).1 = .ok ctx') : ctx' = ctx := by
  unfold detachVolumeFrom at h
  obtain ⟨a, _, h1⟩ := bindRun_fst_ok h
  obtain ⟨s, _, h2⟩ := bindRun_fst_ok h1
  exact (Except.ok.inj h2).symm

theorem createVolumeFromSnapshot_trace {env : EC2Env} {sizeGB : Nat} {az : String}
    {snap : Snapshot} {c : EC2Call}
    (hc : c ∈ (createVolumeFromSnapshot env sizeGB az snap).2) :
    c = EC2Call.createVolume snap.snapshotId az "gp2" sizeGB ∨
      c = EC2Call.describeVolumesById env.createdVolume.volumeId := by
  unfold createVolumeFromSnapshot at hc
  rcases bindRun_trace_mem hc with h | ⟨a, ha, h⟩
  · exact .inl (by simpa using h)
  · have haa : a = env.createdVolume := (Except.ok.inj ha).symm
    subst haa
    rcases bindRun_trace_mem h with h2 | ⟨s, _, h2⟩
    · exact .inr (runPoll_mem h2)
    · exact absurd h2 (by simp)

theorem resizeVolume_trace {env : EC2Env} {sizeGB : Nat} {ctx : WorkflowContext}
    {c : EC2Call} (hc : c ∈ (resizeVolume env sizeGB ctx).2) :
    c = EC2Call.createSnapshot ctx.volume.volumeId
        ("Resize " ++ ctx.volume.volumeId ++ " to " ++ toString sizeGB ++ "GB") ∨
      c = EC2Call.describeSnapshots env.snapshotHandle.snapshotId ∨
      ∃ s : PollSuccess Snapshot,
        pollUntilFrom (snapshotIsComplete env.snapshotPoll) (15 * 60 * 1000) 0 =
          .success s.result s.elapsedMs s.invocations ∧
        c ∈ (createVolumeFromSnapshot env sizeGB ctx.volume.availabilityZone s.result).2 := by
  unfold resizeVolume at hc
  rcases bindRun_trace_mem hc with h | ⟨snap, hsnap, h⟩
  · exact .inl (by simpa using h)
  · have hss : snap = env.snapshotHandle := (Except.ok.inj hsnap).symm
    subst hss
    rcases bindRun_trace_mem h with h2 | ⟨s, hs, h2⟩
    · exact .inr (.inl (runPoll_mem h2))
    · rcases bindRun_trace_mem h2 with h3 | ⟨v, _, h3⟩
      · exact .inr (.inr ⟨s, runPoll_fst_ok hs, h3⟩)
      · exact absurd h3 (by simp)

theorem resizeVolume_fst_ok {env : EC2Env} {sizeGB : Nat} {ctx ctx2 : WorkflowContext}
    (h : (resizeVolume env sizeGB ctx).1 = .ok ctx2) : ctx2.device = ctx.device := by
  unfold resizeVolume at h
  obtain ⟨snap, _, h1⟩ := bindRun_fst_ok h
  obtain ⟨s, _, h2⟩ := bindRun_fst_ok h1
  obtain ⟨v, _, h3⟩ := bindRun_fst_ok h2
  rw [← Except.ok.inj h3]

theorem attachToInstance_trace {env : EC2Env} {iid : String} {ctx : WorkflowContext}
    {c : EC2Call} (hc : c ∈ (attachToInstance env iid ctx).2) :
    c = EC2Call.attachVolume ctx.volume.volumeId ctx.device iid ∨
      c = EC2Call.describeVolumesById ctx.volume.volumeId := by
  unfold attachToInstance at hc
  rcases bindRun_trace_mem hc with h | ⟨a, _, h⟩
  · exact .inl (by simpa using h)
  · rcases bindRun_trace_mem h with h2 | ⟨s, _, h2⟩
    · exact .inr (runPoll_mem h2)
    · exact absurd h2 (by simp)

theorem checkVolumeSize_ok_inv {sizeGB : Nat} {ctx ctx' : WorkflowContext}
    (h : checkVolumeSizeSmallerThan sizeGB ctx = .ok ctx') : ctx' = ctx := by
  unfold checkVolumeSizeSmallerThan at h
  by_cases hs : ctx.volume.size > sizeGB
  · rw [if_pos hs] at h
    exact absurd h (by simp)
  · rw [if_neg hs] at h
    exact (Except.ok.inj h).symm

theorem getSingleVolume_ok_inv {vols : List Volume} {ctx : WorkflowContext}
    (h : getSingleVolume vols = .ok ctx) :
    ∃ a rest, vols = [ctx.volume] ∧ ctx.volume.attachments = a :: rest ∧
      ctx.device = a.device ∧ ctx.volume.volumeType = "standard" := by
  unfold getSingleVolume at h
  by_cases hl : vols.length > 1
  · rw [if_pos hl] at h
    exact absurd h (by simp)
  · rw [if_neg hl] at h
    match vols, hl with
    | [], _ => exact absurd h (by simp)
    | [v], _ =>
        simp only at h
        by_cases ht : v.volumeType ≠ "standard"
        · rw [if_pos ht] at h
          exact absurd h (by simp)
        · rw [if_neg ht] at h
          match hv : v.attachments with
          | [] => rw [hv] at h; exact absurd h (by simp)
          | a :: rest =>
              rw [hv] at h
              have := Except.ok.inj h
              refine ⟨a, rest, ?_, ?_, ?_, ?_⟩
              · rw [← this]
              · rw [← this]; exact hv
              · rw [← this]
              · rw [← this]; exact not_ne_iff.mp ht
    | v :: v' :: rest, hl => exact absurd (by simp) hl

theorem describeVolumesAttached_mem {world : List Volume} {iid az : String}
    {v : Volume} (h : v ∈ describeVolumesAttached world iid az) :
    v.availabilityZone = az := by
  unfold describeVolumesAttached at h
  have := List.of_mem_filter h
  exact eq_of_beq (Bool.and_elim_left this)

theorem getSingleVolumeAttachedTo_az {env : EC2Env} {inst : InstanceRef}
    {ctx : WorkflowContext}
    (h : (getSingleVolumeAttachedTo env inst).1 = .ok ctx) :
    ctx.volume.availabilityZone = inst.availabilityZone := by
  unfold getSingleVolumeAttachedTo at h
  obtain ⟨a, rest, hv, _, _, _⟩ := getSingleVolume_ok_inv h
  exact describeVolumesAttached_mem (hv ▸ List.mem_singleton_self ctx.volume)

/-! ## Validator claims -/

/-- C4: the single-standard-volume check fails with `MultipleVolumes` when
more than one volume is returned, `NoVolume` when zero, `UnsupportedType`
when the sole volume's storage class is not `standard`, `NoAttachment` when
the sole volume has an empty attachment list, and otherwise succeeds
returning the sole volume together with the device path of its first
attachment. -/
theorem getSingleVolume_spec (volumes : List Volume) :
    (volumes.length > 1 → getSingleVolume volumes = .error .multipleVolumes) ∧
    (volumes = [] → getSingleVolume volumes = .error .noVolume) ∧
    (∀ v, volumes = [v] → v.volumeType ≠ "standard" →
      getSingleVolume volumes = .error (.unsupportedType v.volumeId v.volumeType)) ∧
    (∀ v, volumes = [v] → v.volumeType = "standard" → v.attachments = [] →
      getSingleVolume volumes = .error (.noAttachment v.volumeId)) ∧
    (∀ v a rest, volumes = [v] → v.volumeType = "standard" →
      v.attachments = a :: rest → getSingleVolume volumes = .ok ⟨v, a.device⟩) := by
  refine ⟨?_, ?_, ?_, ?_, ?_⟩
  · intro h
    unfold getSingleVolume
    rw [if_pos h]
  · intro h
    subst h
    rfl
  · intro v h ht
    subst h
    simp [getSingleVolume, ht]
  · intro v h ht ha
    subst h
    simp [getSingleVolume, ht, ha]
  · intro v a rest h ht ha
    subst h
    simp [getSingleVolume, ht, ha]

/-- The source volume used in the concrete runs: a `standard` 8 GB volume
attached to instance `i-1` at `/dev/sdf`. -/
def vSrc : Volume :=
  ⟨"vol-src", "standard", 8, "in-use", "us-east-1a", [⟨"i-1", "/dev/sdf"⟩]⟩

/-- A non-`standard` volume. -/
def vGp2 : Volume := ⟨"vol-g", "gp2", 8, "in-use", "us-east-1a", [⟨"i-1", "/dev/sdf"⟩]⟩

/-- A `standard` volume with no attachments. -/
def vNoAtt : Volume := ⟨"vol-n", "standard", 8, "available", "us-east-1a", []⟩

/-- Closed witness for `getSingleVolume_spec` at concrete volume lists. -/
theorem getSingleVolume_spec_witness :
    getSingleVolume [vSrc, vGp2] = .error .multipleVolumes ∧
    getSingleVolume [] = .error .noVolume ∧
    getSingleVolume [vGp2] = .error (.unsupportedType "vol-g" "gp2") ∧
    getSingleVolume [vNoAtt] = .error (.noAttachment "vol-n") ∧
    getSingleVolume [vSrc] = .ok ⟨vSrc, "/dev/sdf"⟩ :=
  ⟨(getSingleVolume_spec [vSrc, vGp2]).1 (by decide),
   (getSingleVolume_spec []).2.1 rfl,
   (getSingleVolume_spec [vGp2]).2.2.1 vGp2 rfl (by decide),
   (getSingleVolume_spec [vNoAtt]).2.2.2.1 vNoAtt rfl rfl rfl,
   (getSingleVolume_spec [vSrc]).2.2.2.2 vSrc ⟨"i-1", "/dev/sdf"⟩ [] rfl rfl rfl⟩

/-- C8: when no instance matches both the requested id and the `stopped`
state filter, the stopped-instance check fails with `NotFound` naming the
instance id; when a match exists it returns the matched instance's id and
its actual availability zone. -/
theorem getStoppedInstance_spec (env : EC2Env) (instanceId : String) :
    ((∀ i ∈ env.instances, ¬(i.instanceId = instanceId ∧ i.state = "stopped")) →
      getStoppedInstance env instanceId =
        (.error (.notFound instanceId),
         [EC2Call.describeInstances [instanceId] ["stopped"]])) ∧
    (∀ i rest, describeInstancesStopped env.instances instanceId = i :: rest →
      getStoppedInstance env instanceId =
        (.ok ⟨i.instanceId, i.availabilityZone⟩,
         [EC2Call.describeInstances [instanceId] ["stopped"]])) := by
  constructor
  · intro h
    have hf : describeInstancesStopped env.instances instanceId = [] := by
      apply List.filter_eq_nil_iff.mpr
      intro i hi
      simp only [Bool.and_eq_true, beq_iff_eq]
      exact h i hi
    unfold getStoppedInstance
    rw [hf]
  · intro i rest h
    unfold getStoppedInstance
    rw [h]

/-- The stopped instance of the concrete runs. -/
def aInst : Instance := ⟨"i-1", "stopped", "us-east-1a"⟩

/-- The `createVolume` response of the concrete runs. -/
def vNew : Volume := ⟨"vol-new", "gp2", 25, "creating", "us-east-1a", []⟩

/-- The new volume once in use. -/
def vNewInUse : Volume :=
  ⟨"vol-new", "gp2", 25, "in-use", "us-east-1a", [⟨"i-1", "/dev/sdf"⟩]⟩

/-- The source volume once detached. -/
def vSrcAvail : Volume :=
  ⟨"vol-src", "standard", 8, "available", "us-east-1a", [⟨"i-1", "/dev/sdf"⟩]⟩

/-- The snapshot response while pending. -/
def snapPending : Snapshot := ⟨"snap-1", "vol-src", "pending", "0%"⟩

/-- The snapshot once completed. -/
def snapDone : Snapshot := ⟨"snap-1", "vol-src", "completed", "100%"⟩

/-- The new volume once available. -/
def vNewAvail : Volume := ⟨"vol-new", "gp2", 25, "available", "us-east-1a", []⟩

/-- A control-plane behaviour on which the whole run succeeds: one stopped
instance, one standard attached volume, and every poll succeeding on its
first attempt. -/
def happyEnv : EC2Env where
  instances := [aInst]
  volumes := [vSrc]
  detachPoll := fun _ => vSrcAvail
  snapshotHandle := snapPending
  snapshotPoll := fun _ => snapDone
  createdVolume := vNew
  createPoll := fun _ => vNewAvail
  attachPoll := fun _ => vNewInUse

/-- `happyEnv` with the target instance running instead of stopped. -/
def notStoppedEnv : EC2Env :=
  { happyEnv with instances := [⟨"i-1", "running", "us-east-1a"⟩] }

/-- Closed witness for `getStoppedInstance_spec`: the check rejects a
running instance and accepts a stopped one. -/
theorem getStoppedInstance_spec_witness :
    getStoppedInstance notStoppedEnv "i-1" =
      (.error (.notFound "i-1"), [EC2Call.describeInstances ["i-1"] ["stopped"]]) ∧
    getStoppedInstance happyEnv "i-1" =
      (.ok ⟨"i-1", "us-east-1a"⟩, [EC2Call.describeInstances ["i-1"] ["stopped"]]) :=
  ⟨(getStoppedInstance_spec notStoppedEnv "i-1").1 (by decide),
   (getStoppedInstance_spec happyEnv "i-1").2 aInst [] rfl⟩

/-! ## The concrete happy run -/

theorem happy_detach :
    pollUntilFrom (volumeIsInState (fun _ => vSrcAvail) "available") 60000 0 =
      .success vSrcAvail 0 1 :=
  pollUntilFrom_zero_success _ _ rfl

theorem happy_snap :
    pollUntilFrom (snapshotIsComplete (fun _ => snapDone)) 900000 0 =
      .success snapDone 0 1 :=
  pollUntilFrom_zero_success _ _ rfl

theorem happy_create :
    pollUntilFrom (volumeIsInState (fun _ => vNewAvail) "available") 60000 0 =
      .success vNewAvail 0 1 :=
  pollUntilFrom_zero_success _ _ rfl

theorem happy_attach :
    pollUntilFrom (volumeIsInState (fun _ => vNewInUse) "in-use") 120000 0 =
      .success vNewInUse 0 1 :=
  pollUntilFrom_zero_success _ _ rfl

/-- The full pipeline evaluated on `happyEnv`: it succeeds with the new
volume and issues exactly these ten requests in order. -/
theorem happy_run :
    pipeline happyEnv "i-1" 25 =
      (.ok vNewInUse,
       [EC2Call.describeInstances ["i-1"] ["stopped"],
        EC2Call.describeVolumesFiltered "i-1" "us-east-1a",
        EC2Call.detachVolume "vol-src" "i-1",
        EC2Call.describeVolumesById "vol-src",
        EC2Call.createSnapshot "vol-src" "Resize vol-src to 25GB",
        EC2Call.describeSnapshots "snap-1",
        EC2Call.createVolume "snap-1" "us-east-1a" "gp2" 25,
        EC2Call.describeVolumesById "vol-new",
        EC2Call.attachVolume "vol-new" "/dev/sdf" "i-1",
        EC2Call.describeVolumesById "vol-new"]) := by
  simp [pipeline, bindRun, pureStep, getStoppedInstance, describeInstancesStopped,
    getSingleVolumeAttachedTo, describeVolumesAttached, getSingleVolume,
    checkVolumeSizeSmallerThan, detachVolumeFrom, resizeVolume,
    createVolumeFromSnapshot, attachToInstance, runPoll, happyEnv, aInst, vSrc,
    happy_detach, happy_snap, happy_create, happy_attach]
  exact ⟨rfl, rfl, rfl, rfl, rfl⟩

/-! ## Pipeline claims -/

/-- C5: when the requested target size is strictly smaller than the current
volume's size (and validation reached the size check), the workflow fails
with `InvalidSize` naming the volume and both sizes, and the trace up to
that point contains no mutating call — in particular no `detachVolume`. -/
theorem invalidSize_before_mutation (env : EC2Env) (iid : String) (size : Nat)
    (inst : InstanceRef) (ctx : WorkflowContext)
    (h1 : (getStoppedInstance env iid).1 = .ok inst)
    (h2 : (getSingleVolumeAttachedTo env inst).1 = .ok ctx)
    (h3 : size < ctx.volume.size) :
    ∃ trace, pipeline env iid size =
      (.error (.invalidSize ctx.volume.volumeId size ctx.volume.size), trace) ∧
      ∀ c ∈ trace, c.isMutating = false := by
  have hck : (pureStep (checkVolumeSizeSmallerThan size ctx)).1 =
      Except.error (.invalidSize ctx.volume.volumeId size ctx.volume.size) := by
    show checkVolumeSizeSmallerThan size ctx = _
    unfold checkVolumeSizeSmallerThan
    rw [if_pos h3]
  refine ⟨[EC2Call.describeInstances [iid] ["stopped"],
           EC2Call.describeVolumesFiltered inst.instanceId inst.availabilityZone],
         ?_, ?_⟩
  · simp only [pipeline, bindRun_ok_eq h1, bindRun_ok_eq h2, bindRun_error_eq hck]
    rfl
  · intro c hcm
    fin_cases hcm <;> rfl

/-- Closed witness for `invalidSize_before_mutation`: requesting 4 GB on
the 8 GB source volume fails with `InvalidSize` before any mutating call. -/
theorem invalidSize_before_mutation_witness :
    (getStoppedInstance happyEnv "i-1").1 = .ok ⟨"i-1", "us-east-1a"⟩ ∧
    (getSingleVolumeAttachedTo happyEnv ⟨"i-1", "us-east-1a"⟩).1 =
      .ok ⟨vSrc, "/dev/sdf"⟩ ∧
    (4 : Nat) < vSrc.size ∧
    ∃ trace, pipeline happyEnv "i-1" 4 =
      (.error (.invalidSize "vol-src" 4 8), trace) ∧
      ∀ c ∈ trace, c.isMutating = false :=
  ⟨rfl, rfl, by decide,
   invalidSize_before_mutation happyEnv "i-1" 4 ⟨"i-1", "us-east-1a"⟩
     ⟨vSrc, "/dev/sdf"⟩ rfl rfl (by decide)⟩

/-- When the snapshot poll times out, `resizeVolume` fails with that
timeout and its trace is the `createSnapshot` call followed by the
snapshot describes — no `createVolume` request. -/
theorem resizeVolume_timeout_eq {env : EC2Env} {size : Nat}
    {ctx : WorkflowContext} {e n : Nat}
    (hpoll : pollUntilFrom (snapshotIsComplete env.snapshotPoll) (15 * 60 * 1000) 0 =
      .timeout e n) :
    resizeVolume env size ctx =
      (.error (.timeout (env.snapshotHandle.snapshotId ++
          " is in state \"completed\" after creating") e),
       EC2Call.createSnapshot ctx.volume.volumeId
           ("Resize " ++ ctx.volume.volumeId ++ " to " ++ toString size ++ "GB") ::
         List.replicate n (EC2Call.describeSnapshots env.snapshotHandle.snapshotId)) := by
  simp only [resizeVolume, runPoll, hpoll, bindRun, List.singleton_append]

/-- C7: when the snapshot poll never observes state `completed`, the
pipeline (having passed validation and detach) fails with a `Timeout`
naming the snapshot id and the elapsed time, and its trace contains no
`createVolume` and no `attachVolume` call: no later stage executes. -/
theorem snapshot_timeout_no_create (env : EC2Env) (iid : String) (size : Nat)
    (inst : InstanceRef) (ctx : WorkflowContext)
    (h1 : (getStoppedInstance env iid).1 = .ok inst)
    (h2 : (getSingleVolumeAttachedTo env inst).1 = .ok ctx)
    (h3 : ctx.volume.size ≤ size)
    (h4 : (detachVolumeFrom env iid ctx).1 = .ok ctx)
    (h5 : ∀ n, ((env.snapshotPoll n).state == "completed") = false) :
    ∃ e trace, pipeline env iid size =
      (.error (.timeout (env.snapshotHandle.snapshotId ++
        " is in state \"completed\" after creating") e), trace) ∧
      15 * 60 * 1000 < e ∧ e ≤ 15 * 60 * 1000 + POLL_DELAY ∧
      (∀ s az ty sz, EC2Call.createVolume s az ty sz ∉ trace) ∧
      (∀ v d i, EC2Call.attachVolume v d i ∉ trace) := by
  obtain ⟨e, n, hpoll, he1, he2⟩ :=
    pollUntilFrom_never (snapshotIsComplete env.snapshotPoll) (15 * 60 * 1000) h5 0
      (by simp)
  have hck : (pureStep (checkVolumeSizeSmallerThan size ctx)).1 = Except.ok ctx := by
    show checkVolumeSizeSmallerThan size ctx = _
    unfold checkVolumeSizeSmallerThan
    rw [if_neg (by omega)]
  have hres := @resizeVolume_timeout_eq env size ctx e n hpoll
  have hres1 : (resizeVolume env size ctx).1 = Except.error (.timeout
      (env.snapshotHandle.snapshotId ++ " is in state \"completed\" after creating") e) := by
    rw [hres]
  refine ⟨e, (getStoppedInstance env iid).2 ++ ((getSingleVolumeAttachedTo env inst).2 ++
      ((pureStep (checkVolumeSizeSmallerThan size ctx)).2 ++
        ((detachVolumeFrom env iid ctx).2 ++ (resizeVolume env size ctx).2))),
    ?_, he1, he2, ?_, ?_⟩
  · simp only [pipeline, bindRun_ok_eq h1, bindRun_ok_eq h2, bindRun_ok_eq hck,
      bindRun_ok_eq h4, bindRun_error_eq hres1]
  · intro s az ty sz hmem
    rcases List.mem_append.mp hmem with hm | hmem
    · exact absurd hm (by simp [getStoppedInstance])
    rcases List.mem_append.mp hmem with hm | hmem
    · exact absurd hm (by simp [getSingleVolumeAttachedTo])
    rcases List.mem_append.mp hmem with hm | hmem
    · exact absurd hm (by simp [pureStep])
    rcases List.mem_append.mp hmem with hm | hmem
    · rcases detachVolumeFrom_trace hm with h | h <;> simp at h
    rw [hres] at hmem
    rcases List.mem_cons.mp hmem with hm | hm
    · simp at hm
    · exact absurd (List.eq_of_mem_replicate hm) (by simp)
  · intro v d i hmem
    rcases List.mem_append.mp hmem with hm | hmem
    · exact absurd hm (by simp [getStoppedInstance])
    rcases List.mem_append.mp hmem with hm | hmem
    · exact absurd hm (by simp [getSingleVolumeAttachedTo])
    rcases List.mem_append.mp hmem with hm | hmem
    · exact absurd hm (by simp [pureStep])
    rcases List.mem_append.mp hmem with hm | hmem
    · rcases detachVolumeFrom_trace hm with h | h <;> simp at h
    rw [hres] at hmem
    rcases List.mem_cons.mp hmem with hm | hm
    · simp at hm
    · exact absurd (List.eq_of_mem_replicate hm) (by simp)

/-- `happyEnv` with a snapshot that never completes. -/
def snapStuckEnv : EC2Env := { happyEnv with snapshotPoll := fun _ => snapPending }

/-- Closed witness for `snapshot_timeout_no_create` on a run whose snapshot
stays `pending` forever. -/
theorem snapshot_timeout_no_create_witness :
    (getStoppedInstance snapStuckEnv "i-1").1 = .ok ⟨"i-1", "us-east-1a"⟩ ∧
    (getSingleVolumeAttachedTo snapStuckEnv ⟨"i-1", "us-east-1a"⟩).1 =
      .ok ⟨vSrc, "/dev/sdf"⟩ ∧
    vSrc.size ≤ 25 ∧
    (∀ n, ((snapStuckEnv.snapshotPoll n).state == "completed") = false) ∧
    ∃ e trace, pipeline snapStuckEnv "i-1" 25 =
      (.error (.timeout ("snap-1" ++ " is in state \"completed\" after creating") e),
       trace) ∧
      15 * 60 * 1000 < e ∧ e ≤ 15 * 60 * 1000 + POLL_DELAY ∧
      (∀ s az ty sz, EC2Call.createVolume s az ty sz ∉ trace) ∧
      (∀ v d i, EC2Call.attachVolume v d i ∉ trace) :=
  ⟨rfl, rfl, by decide, fun _ => rfl,
   snapshot_timeout_no_create snapStuckEnv "i-1" 25 ⟨"i-1", "us-east-1a"⟩
     ⟨vSrc, "/dev/sdf"⟩ rfl rfl (by decide)
     (by simp [detachVolumeFrom, bindRun, runPoll,
       show pollUntilFrom (volumeIsInState snapStuckEnv.detachPoll "available")
           (1 * 60 * 1000) 0 = .success vSrcAvail 0 1 from happy_detach])
     (fun _ => rfl)⟩

/-- C6: on a run that reaches the Recreating stage, `createVolume` is
invoked with the completed snapshot's id, the requested target size, and
the availability zone of the validated context's volume — which, by the
filtered volume query, equals the zone the stopped-instance check returned
— and the new volume is then polled until it reaches state `available`
(the result of the stage is exactly that poll's result). -/
theorem recreate_params_spec (env : EC2Env) (iid : String) (size : Nat)
    (inst : InstanceRef) (ctx : WorkflowContext) (snap : Snapshot) (e n : Nat)
    (h1 : (getStoppedInstance env iid).1 = .ok inst)
    (h2 : (getSingleVolumeAttachedTo env inst).1 = .ok ctx)
    (h3 : ctx.volume.size ≤ size)
    (h4 : (detachVolumeFrom env iid ctx).1 = .ok ctx)
    (h5 : pollUntilFrom (snapshotIsComplete env.snapshotPoll) (15 * 60 * 1000) 0 =
      .success snap e n) :
    ctx.volume.availabilityZone = inst.availabilityZone ∧
    EC2Call.createVolume snap.snapshotId inst.availabilityZone "gp2" size ∈
      (pipeline env iid size).2 ∧
    (createVolumeFromSnapshot env size ctx.volume.availabilityZone snap).1 =
      Except.map (fun s => s.result)
        (pollUntil (volumeIsInState env.createPoll "available")
          (env.createdVolume.volumeId ++
            " is in \"available\" state after creating from snapshot " ++ snap.snapshotId)
          (1 * 60 * 1000)) := by
  have haz : ctx.volume.availabilityZone = inst.availabilityZone :=
    getSingleVolumeAttachedTo_az h2
  have hck : (pureStep (checkVolumeSizeSmallerThan size ctx)).1 = Except.ok ctx := by
    show checkVolumeSizeSmallerThan size ctx = _
    unfold checkVolumeSizeSmallerThan
    rw [if_neg (by omega)]
  refine ⟨haz, ?_, ?_⟩
  · have hmemCreate : EC2Call.createVolume snap.snapshotId ctx.volume.availabilityZone
        "gp2" size ∈
        (createVolumeFromSnapshot env size ctx.volume.availabilityZone snap).2 := by
      unfold createVolumeFromSnapshot
      exact bindRun_snd_left (by simp)
    have hpollOk : (runPoll (.describeSnapshots env.snapshotHandle.snapshotId)
        (snapshotIsComplete env.snapshotPoll)
        (env.snapshotHandle.snapshotId ++ " is in state \"completed\" after creating")
        (15 * 60 * 1000)).1 = Except.ok ⟨snap, e, n⟩ := by
      rw [runPoll_eq_of_success _ _ h5]
    have hmemResize : EC2Call.createVolume snap.snapshotId ctx.volume.availabilityZone
        "gp2" size ∈ (resizeVolume env size ctx).2 := by
      unfold resizeVolume
      exact bindRun_snd_right rfl (bindRun_snd_right hpollOk
        (bindRun_snd_left hmemCreate))
    rw [← haz]
    unfold pipeline
    exact bindRun_snd_right h1 (bindRun_snd_right h2 (bindRun_snd_right hck
      (bindRun_snd_right h4 (bindRun_snd_left hmemResize))))
  · unfold createVolumeFromSnapshot pollUntil runPoll
    cases hp : pollUntilFrom (volumeIsInState env.createPoll "available")
        (1 * 60 * 1000) 0 with
    | success r e' n' => simp [bindRun, Except.map]
    | timeout e' n' => simp [bindRun, Except.map]

/-- Closed witness for `recreate_params_spec` on the happy run. -/
theorem recreate_params_spec_witness :
    (getStoppedInstance happyEnv "i-1").1 = .ok ⟨"i-1", "us-east-1a"⟩ ∧
    (getSingleVolumeAttachedTo happyEnv ⟨"i-1", "us-east-1a"⟩).1 =
      .ok ⟨vSrc, "/dev/sdf"⟩ ∧
    vSrc.size ≤ 25 ∧
    pollUntilFrom (snapshotIsComplete happyEnv.snapshotPoll) (15 * 60 * 1000) 0 =
      .success snapDone 0 1 ∧
    (vSrc.availabilityZone = "us-east-1a" ∧
      EC2Call.createVolume snapDone.snapshotId "us-east-1a" "gp2" 25 ∈
        (pipeline happyEnv "i-1" 25).2 ∧
      (createVolumeFromSnapshot happyEnv 25 vSrc.availabilityZone snapDone).1 =
        Except.map (fun s => s.result)
          (pollUntil (volumeIsInState happyEnv.createPoll "available")
            (happyEnv.createdVolume.volumeId ++
              " is in \"available\" state after creating from snapshot " ++
              snapDone.snapshotId)
            (1 * 60 * 1000))) :=
  ⟨rfl, rfl, by decide, happy_snap,
   recreate_params_spec happyEnv "i-1" 25 ⟨"i-1", "us-east-1a"⟩ ⟨vSrc, "/dev/sdf"⟩
     snapDone 0 1 rfl rfl (by decide)
     (by simp [detachVolumeFrom, bindRun, runPoll,
       show pollUntilFrom (volumeIsInState happyEnv.detachPoll "available")
           (1 * 60 * 1000) 0 = .success vSrcAvail 0 1 from happy_detach])
     happy_snap⟩

/-- C3: every `attachVolume` request the pipeline ever issues carries the
device path captured by the single-volume validation — the device of the
source volume's first attachment — which no later stage recomputes. -/
theorem attach_device_eq_source_device (env : EC2Env) (iid : String) (size : Nat)
    (v d i : String)
    (hmem : EC2Call.attachVolume v d i ∈ (pipeline env iid size).2) :
    ∃ inst ctx a rest, (getStoppedInstance env iid).1 = .ok inst ∧
      (getSingleVolumeAttachedTo env inst).1 = .ok ctx ∧
      ctx.volume.attachments = a :: rest ∧ d = ctx.device ∧ ctx.device = a.device := by
  unfold pipeline at hmem
  rcases bindRun_trace_mem hmem with hm | ⟨inst, hinst, hmem1⟩
  · exact absurd hm (by simp [getStoppedInstance])
  rcases bindRun_trace_mem hmem1 with hm | ⟨ctx, hctx, hmem2⟩
  · exact absurd hm (by simp [getSingleVolumeAttachedTo])
  rcases bindRun_trace_mem hmem2 with hm | ⟨ctx2, hck, hmem3⟩
  · exact absurd hm (by simp [pureStep])
  rcases bindRun_trace_mem hmem3 with hm | ⟨ctx3, hdet, hmem4⟩
  · rcases detachVolumeFrom_trace hm with h | h <;> simp at h
  rcases bindRun_trace_mem hmem4 with hm | ⟨ctx4, hres, hmem5⟩
  · rcases resizeVolume_trace hm with h | h | ⟨s, _, h⟩
    · simp at h
    · simp at h
    · rcases createVolumeFromSnapshot_trace h with h' | h' <;> simp at h'
  have hc2 : ctx2 = ctx := checkVolumeSize_ok_inv hck
  have hc3 : ctx3 = ctx2 := detachVolumeFrom_fst_ok hdet
  have hdev : ctx4.device = ctx3.device := resizeVolume_fst_ok hres
  rcases attachToInstance_trace hmem5 with h | h
  · simp only [EC2Call.attachVolume.injEq] at h
    obtain ⟨a, rest, _, hatt, hda, _⟩ := getSingleVolume_ok_inv hctx
    exact ⟨inst, ctx, a, rest, hinst, hctx, hatt,
      h.2.1.trans (by rw [hdev, hc3, hc2]), hda⟩
  · simp at h

/-- Closed witness for `attach_device_eq_source_device` on the happy run:
the one `attachVolume` request uses `/dev/sdf`, the source attachment's
device. -/
theorem attach_device_eq_source_device_witness :
    EC2Call.attachVolume "vol-new" "/dev/sdf" "i-1" ∈ (pipeline happyEnv "i-1" 25).2 ∧
    ∃ inst ctx a rest, (getStoppedInstance happyEnv "i-1").1 = .ok inst ∧
      (getSingleVolumeAttachedTo happyEnv inst).1 = .ok ctx ∧
      ctx.volume.attachments = a :: rest ∧ "/dev/sdf" = ctx.device ∧
      ctx.device = a.device :=
  ⟨by rw [happy_run]; decide,
   attach_device_eq_source_device happyEnv "i-1" 25 "vol-new" "/dev/sdf" "i-1"
     (by rw [happy_run]; decide)⟩

/-- C9: every `createVolume` request of any run specifies storage class
`gp2` (and the requested size) for the new volume — never the source
volume's class — even though the validator only accepts a source volume
whose class is `standard`. -/
theorem createVolume_type_gp2 (env : EC2Env) (iid : String) (size : Nat) :
    (∀ s az ty sz, EC2Call.createVolume s az ty sz ∈ (pipeline env iid size).2 →
      ty = "gp2" ∧ sz = size) ∧
    (∀ vols ctx, getSingleVolume vols = .ok ctx →
      ctx.volume.volumeType = "standard") := by
  constructor
  · intro s az ty sz hmem
    unfold pipeline at hmem
    rcases bindRun_trace_mem hmem with hm | ⟨inst, _, hmem⟩
    · exact absurd hm (by simp [getStoppedInstance])
    rcases bindRun_trace_mem hmem with hm | ⟨ctx, _, hmem⟩
    · exact absurd hm (by simp [getSingleVolumeAttachedTo])
    rcases bindRun_trace_mem hmem with hm | ⟨ctx2, _, hmem⟩
    · exact absurd hm (by simp [pureStep])
    rcases bindRun_trace_mem hmem with hm | ⟨ctx3, _, hmem⟩
    · rcases detachVolumeFrom_trace hm with h | h <;> simp at h
    rcases bindRun_trace_mem hmem with hm | ⟨ctx4, _, hmem⟩
    · rcases resizeVolume_trace hm with h | h | ⟨sp, _, h⟩
      · simp at h
      · simp at h
      · rcases createVolumeFromSnapshot_trace h with h' | h'
        · simp only [EC2Call.createVolume.injEq] at h'
          exact ⟨h'.2.2.1, h'.2.2.2⟩
        · simp at h'
    · rcases attachToInstance_trace hmem with h | h <;> simp at h
  · intro vols ctx h
    obtain ⟨_, _, _, _, _, ht⟩ := getSingleVolume_ok_inv h
    exact ht

/-- Closed witness for `createVolume_type_gp2`: the happy run's
`createVolume` request carries type `gp2` and size 25, and the validated
source volume is `standard`. -/
theorem createVolume_type_gp2_witness :
    (EC2Call.createVolume "snap-1" "us-east-1a" "gp2" 25 ∈
        (pipeline happyEnv "i-1" 25).2 ∧
      ("gp2" : String) = "gp2" ∧ (25 : Nat) = 25) ∧
    (getSingleVolume [vSrc] = .ok ⟨vSrc, "/dev/sdf"⟩ ∧
      vSrc.volumeType = "standard") :=
  ⟨⟨by rw [happy_run]; decide,
    (createVolume_type_gp2 happyEnv "i-1" 25).1 "snap-1" "us-east-1a" "gp2" 25
      (by rw [happy_run]; decide)⟩,
   ⟨rfl, (createVolume_type_gp2 happyEnv "i-1" 25).2 [vSrc] ⟨vSrc, "/dev/sdf"⟩ rfl⟩⟩

end ResizeEbs
